import Mathlib

/-!
Shallow embedding of the KYC front end (SHINOYP/KYC): the client-side
upload/verify workflow state machine, the file-staging component with its
preview-resource lifecycle, the health probe, and the projection from the
raw verify-response JSON to the `VerificationResult` view model.

JavaScript runtime values reachable from a parsed JSON body are modelled by
`JsValue`; the `||` (falsy) and `??` (nullish) defaulting operators and
optional-chaining property access are embedded explicitly, since the
projection in `handleVerifyKYC` relies on their exact semantics.
-/

namespace KYC

/-- A JavaScript value as it can appear while transforming a parsed JSON
response body. `vUndefined` is the result of reading an absent property.
JSON numbers in this development are modelled as integers (every numeric
field of the claims is integer-valued). -/
inductive JsValue where
  | vUndefined : JsValue
  | vNull : JsValue
  | vBool : Bool → JsValue
  | vNum : Int → JsValue
  | vStr : String → JsValue
  | vArr : List JsValue → JsValue
  | vObj : List (String × JsValue) → JsValue
  deriving Repr

/-- Look a key up in an object's field list (first match). -/
def jsGetField : List (String × JsValue) → String → JsValue
  | [], _ => .vUndefined
  | (k, v) :: rest, key => if k = key then v else jsGetField rest key

/-- Property access `a.k` / `a?.k` as used on JSON data: an absent key, or a
base value that is not an object, reads as `undefined`. -/
def jsGet : JsValue → String → JsValue
  | .vObj fields, key => jsGetField fields key
  | _, _ => .vUndefined

/-- JavaScript truthiness of a JSON-reachable value. -/
def truthy : JsValue → Bool
  | .vUndefined => false
  | .vNull => false
  | .vBool b => b
  | .vNum n => n != 0
  | .vStr s => s != ""
  | .vArr _ => true
  | .vObj _ => true

/-- `a || b`: the right operand when the left is falsy. -/
def jsOr (a b : JsValue) : JsValue := if truthy a then a else b

/-- Whether a value is `null` or `undefined`. -/
def isNullish : JsValue → Bool
  | .vUndefined => true
  | .vNull => true
  | _ => false

/-- `a ?? b`: the right operand when the left is nullish. -/
def jsNullish (a b : JsValue) : JsValue := if isNullish a then b else a

/-- `extracted` block of the view model. -/
structure Extracted where
  name : JsValue
  dob : JsValue
  id_number : JsValue
  document_type : JsValue
  deriving Repr

/-- `fraud_flags.details` block of the view model. -/
structure FraudDetails where
  age_validation : JsValue
  expiry_validation : JsValue
  name_validation : JsValue
  id_validation : JsValue
  consistency_issues : JsValue
  deriving Repr

/-- `fraud_flags` block of the view model. -/
structure FraudFlags where
  has_fraud_indicators : JsValue
  risk_level : JsValue
  flags : JsValue
  summary : JsValue
  details : FraudDetails
  deriving Repr

/-- The normalized view model built by `handleVerifyKYC`'s
`transformedResult` literal. -/
structure VerificationResult where
  verification_id : JsValue
  success : JsValue
  extracted : Extracted
  trust_score : JsValue
  face_confidence : JsValue
  fraud_flags : FraudFlags
  summary : JsValue
  status : JsValue
  timestamp : JsValue
  processing_time : JsValue
  deriving Repr

/-- The `transformedResult` object literal from `handleVerifyKYC`, field by
field: `||` for the string/array/object defaults, `??` for
`trust_score`, `face_confidence` and `has_fraud_indicators`, optional
chaining through `fraud_flags` and `fraud_flags.details`, and plain
passthrough for `verification_id`, `success`, `timestamp` and
`processing_time` (the last read from the raw `processing_time_ms`). -/
def transformResult (apiResult : JsValue) : VerificationResult :=
  let ff := jsGet apiResult "fraud_flags"
  let det := jsGet ff "details"
  { verification_id := jsGet apiResult "verification_id"
    success := jsGet apiResult "success"
    extracted :=
      { name := jsOr (jsGet apiResult "name") (.vStr "Unknown")
        dob := jsOr (jsGet apiResult "dob") (.vStr "Unknown")
        id_number := jsOr (jsGet apiResult "id_number") (.vStr "Unknown")
        document_type := jsOr (jsGet apiResult "document_type") (.vStr "unknown") }
    trust_score := jsNullish (jsGet apiResult "trust_score") (.vNum 0)
    face_confidence := jsNullish (jsGet apiResult "face_confidence") (.vNum 0)
    fraud_flags :=
      { has_fraud_indicators := jsNullish (jsGet ff "has_fraud_indicators") (.vBool false)
        risk_level := jsOr (jsGet ff "risk_level") (.vStr "unknown")
        flags := jsOr (jsGet ff "flags") (.vArr [])
        summary := jsOr (jsGet ff "summary") (.vStr "")
        details :=
          { age_validation := jsOr (jsGet det "age_validation") (.vObj [])
            expiry_validation := jsOr (jsGet det "expiry_validation") (.vObj [])
            name_validation := jsOr (jsGet det "name_validation") (.vObj [])
            id_validation := jsOr (jsGet det "id_validation") (.vObj [])
            consistency_issues := jsOr (jsGet det "consistency_issues") (.vArr []) } }
    summary := jsOr (jsGet apiResult "summary") (.vStr "Verification completed.")
    status := jsOr (jsGet apiResult "status") (.vStr "completed")
    timestamp := jsGet apiResult "timestamp"
    processing_time := jsGet apiResult "processing_time_ms" }

/-- A candidate file as the browser hands it to the handlers: its name, its
size in bytes, and its declared MIME type string. -/
structure MFile where
  name : String
  size : Nat
  type : String
  deriving Repr, DecidableEq

/-- The two-slot file selection the staging component reports to the main
component (`files` state of `KYCApp`). -/
structure Files where
  idCard : Option MFile
  selfie : Option MFile
  deriving Repr, DecidableEq

/-- The `verification` state record of `KYCApp`. -/
structure Verification where
  step : Nat
  isLoading : Bool
  result : Option VerificationResult
  error : Option String
  deriving Repr

/-- The `apiHealth` state record of `KYCApp`; fields that a given update
does not set are `none`. -/
structure ApiHealth where
  status : String
  lastChecked : Option String
  data : Option JsValue
  error : Option String
  deriving Repr

/-- The whole mutable state of the `KYCApp` component. -/
structure AppState where
  files : Files
  verification : Verification
  apiHealth : ApiHealth
  deriving Repr

/-- Outcome of one `fetch` call: a thrown transport error, or an HTTP
response with its status code, status text and parsed JSON body. -/
inductive FetchOutcome where
  | networkError (message : String)
  | httpResponse (status : Nat) (statusText : String) (body : JsValue)
  deriving Repr

/-- `Response.ok`: status in the 2xx range. -/
def respOk (status : Nat) : Bool := 200 ≤ status && status < 300

/-- The `verification` value at component mount, also the value every
reset-like update writes. -/
def resetVerification : Verification :=
  { step := 1, isLoading := false, result := none, error := none }

/-- The final `setVerification` value of a `handleVerifyKYC` call that got
past the guard: step 4 with the transformed result on a 2xx response,
otherwise back to step 1 carrying the caught error's message. -/
def verifyFinal : FetchOutcome → Verification
  | .networkError msg =>
    { step := 1, isLoading := false, result := none,
      error := some ("Verification failed: " ++ msg) }
  | .httpResponse status statusText body =>
    if respOk status then
      { step := 4, isLoading := false, result := some (transformResult body),
        error := none }
    else
      { step := 1, isLoading := false, result := none,
        error := some ("Verification failed: HTTP " ++ toString status ++ ": "
          ++ statusText) }

/-- Everything one call of `handleVerifyKYC` does: the final component
state, whether the verify request was issued, each `setVerification`
argument in order, and the blocking `alert`, if any. -/
structure VerifyRun where
  finalState : AppState
  requestIssued : Bool
  updates : List Verification
  alertMsg : Option String
  deriving Repr

/-- `handleVerifyKYC`, with the `fetch` outcome supplied as a parameter.
With either slot empty it only alerts; otherwise it performs the
`setVerification` sequence step 2 (loading), step 3 (loading), then
`verifyFinal`. The staged files are never touched. -/
def handleVerifyKYC (s : AppState) (outcome : FetchOutcome) : VerifyRun :=
  if s.files.idCard.isNone || s.files.selfie.isNone then
    { finalState := s
      requestIssued := false
      updates := []
      alertMsg := some "Please upload both ID document and selfie before verification." }
  else
    { finalState := { s with verification := verifyFinal outcome }
      requestIssued := true
      updates := [{ step := 2, isLoading := true, result := none, error := none },
                  { step := 3, isLoading := true, result := none, error := none },
                  verifyFinal outcome]
      alertMsg := none }

/-- `handleFilesSelect`: store the new two-slot snapshot and, when a result
is currently displayed, reset the verification record. -/
def handleFilesSelect (s : AppState) (newFiles : Files) : AppState :=
  if s.verification.result.isSome then
    { s with files := newFiles, verification := resetVerification }
  else
    { s with files := newFiles }

/-- `handleStartOver`: clear both slots and reset the verification record. -/
def handleStartOver (s : AppState) : AppState :=
  { s with files := { idCard := none, selfie := none },
           verification := resetVerification }

/-- `checkApiHealth`, with the `fetch` outcome and the formatted current
time supplied as parameters; it replaces the `apiHealth` record and touches
nothing else. -/
def checkApiHealth (s : AppState) (outcome : FetchOutcome) (now : String) : AppState :=
  let h : ApiHealth :=
    match outcome with
    | .networkError msg =>
      { status := "error", lastChecked := some now, data := none,
        error := some msg }
    | .httpResponse status _ body =>
      if respOk status then
        { status := "healthy", lastChecked := some now, data := some body,
          error := none }
      else
        { status := "error", lastChecked := some now, data := none,
          error := some ("HTTP " ++ toString status) }
  { s with apiHealth := h }

/-- `canProceed`: the submit button's enabled condition. -/
def canProceed (s : AppState) : Bool :=
  s.files.idCard.isSome && s.files.selfie.isSome && !s.verification.isLoading

/-- The `KYCApp` state at mount. -/
def initialState : AppState :=
  { files := { idCard := none, selfie := none }
    verification := resetVerification
    apiHealth := { status := "unknown", lastChecked := none, data := none,
                   error := none } }

/-- The component states visible during one `handleVerifyKYC` call: the
state after each `setVerification`, files unchanged throughout. -/
def verifyIntermediates (s : AppState) (outcome : FetchOutcome) : List AppState :=
  (handleVerifyKYC s outcome).updates.map (fun v => { s with verification := v })

/-- States of the `KYCApp` component reachable from mount through its
handlers, including the states passed through mid-verify. -/
inductive Reachable : AppState → Prop where
  | init : Reachable initialState
  | filesSelect (s : AppState) (f : Files) :
      Reachable s → Reachable (handleFilesSelect s f)
  | verifyMid (s : AppState) (outcome : FetchOutcome) (s' : AppState) :
      Reachable s → s' ∈ verifyIntermediates s outcome → Reachable s'
  | verifyDone (s : AppState) (outcome : FetchOutcome) :
      Reachable s → Reachable (handleVerifyKYC s outcome).finalState
  | startOver (s : AppState) : Reachable s → Reachable (handleStartOver s)
  | health (s : AppState) (outcome : FetchOutcome) (now : String) :
      Reachable s → Reachable (checkApiHealth s outcome now)

/-- The 10 MB size limit of `validateFile`. -/
def maxSize : Nat := 10 * 1024 * 1024

/-- The MIME-type allow-list of `validateFile` (JPEG, PNG, WebP). -/
def allowedTypes : List String :=
  ["image/jpeg", "image/jpg", "image/png", "image/webp"]

/-- `validateFile`: the size constraint is checked first, then the type
constraint; `none` means the file is acceptable. -/
def validateFile (f : MFile) : Option String :=
  if f.size > maxSize then
    some "File size must be less than 10MB"
  else if !(allowedTypes.contains f.type) then
    some "Please upload a valid image file (JPEG, PNG, WebP)"
  else
    none

/-- The two slots of the staging component. -/
inductive Slot where
  | id
  | selfie
  deriving Repr, DecidableEq

/-- A staged file together with its preview resource, identified by the
allocation number of the object URL created for it. -/
structure StagedFile where
  file : MFile
  preview : Nat
  deriving Repr, DecidableEq

/-- State of the `FileUpload` component, instrumented for the preview
lifecycle: `nextPreview` counts object URLs created so far (each
`URL.createObjectURL` returns a fresh one) and `released` logs every
`URL.revokeObjectURL` call in order. -/
structure UploadState where
  idCardFile : Option StagedFile
  selfieFile : Option StagedFile
  nextPreview : Nat
  released : List Nat
  deriving Repr, DecidableEq

/-- The `FileUpload` state at mount. -/
def initialUpload : UploadState :=
  { idCardFile := none, selfieFile := none, nextPreview := 0, released := [] }

/-- `URL.revokeObjectURL` on a slot's preview, when the slot is occupied. -/
def revoke (released : List Nat) : Option StagedFile → List Nat
  | some sf => released ++ [sf.preview]
  | none => released

/-- What one call of `handleFileSelect` or `handleFileRemove` does: the new
component state, the two-slot snapshot passed to `onFilesSelect` (if the
call notified at all), and the validation `alert` message (if any). -/
structure SelectOutcome where
  state : UploadState
  notified : Option Files
  alertMsg : Option String
  deriving Repr, DecidableEq

/-- `handleFileSelect`: validate, and on failure alert and stop; on success
revoke the slot's old preview, stage the file with a fresh preview, and
notify with the full two-slot snapshot. -/
def handleFileSelect (s : UploadState) (f : MFile) (slot : Slot) : SelectOutcome :=
  if (validateFile f).isSome then
    { state := s, notified := none, alertMsg := validateFile f }
  else
    match slot with
    | .id =>
      { state :=
          { idCardFile := some { file := f, preview := s.nextPreview }
            selfieFile := s.selfieFile
            nextPreview := s.nextPreview + 1
            released := revoke s.released s.idCardFile }
        notified := some { idCard := some f, selfie := s.selfieFile.map (·.file) }
        alertMsg := none }
    | .selfie =>
      { state :=
          { idCardFile := s.idCardFile
            selfieFile := some { file := f, preview := s.nextPreview }
            nextPreview := s.nextPreview + 1
            released := revoke s.released s.selfieFile }
        notified := some { idCard := s.idCardFile.map (·.file), selfie := some f }
        alertMsg := none }

/-- `handleFileRemove`: revoke the slot's preview, clear the slot, notify
with the full two-slot snapshot. -/
def handleFileRemove (s : UploadState) (slot : Slot) : SelectOutcome :=
  match slot with
  | .id =>
    { state :=
        { idCardFile := none
          selfieFile := s.selfieFile
          nextPreview := s.nextPreview
          released := revoke s.released s.idCardFile }
      notified := some { idCard := none, selfie := s.selfieFile.map (·.file) }
      alertMsg := none }
  | .selfie =>
    { state :=
        { idCardFile := s.idCardFile
          selfieFile := none
          nextPreview := s.nextPreview
          released := revoke s.released s.selfieFile }
      notified := some { idCard := s.idCardFile.map (·.file), selfie := none }
      alertMsg := none }

/-- One user operation on the staging component. -/
inductive StageOp where
  | select (f : MFile) (slot : Slot)
  | remove (slot : Slot)
  deriving Repr, DecidableEq

/-- Apply one staging operation (state part only). -/
def applyOp (s : UploadState) : StageOp → UploadState
  | .select f slot => (handleFileSelect s f slot).state
  | .remove slot => (handleFileRemove s slot).state

/-- Run a sequence of staging operations from a state. -/
def runOps (s : UploadState) : List StageOp → UploadState
  | [] => s
  | op :: rest => runOps (applyOp s op) rest

/-- The cleanup closure registered by the `useEffect` with an empty
dependency list: at unmount it revokes the previews of the staged files
*captured at the render that created it* (`captured`), not those staged at
unmount time — the source registers it once at mount, so `captured` is the
mount-time state. -/
def unmountCleanup (captured current : UploadState) : UploadState :=
  { current with
    released := revoke (revoke current.released captured.idCardFile)
      captured.selfieFile }

/-- A preview number is live when it was allocated and some slot still
holds it (its object URL has not been revoked). -/
def livePreview (s : UploadState) (p : Nat) : Prop :=
  (∃ sf, s.idCardFile = some sf ∧ sf.preview = p) ∨
  (∃ sf, s.selfieFile = some sf ∧ sf.preview = p)

/-- A verify attempt that fails: a thrown transport error or a non-2xx
response. -/
def verifyFails : FetchOutcome → Bool
  | .networkError _ => true
  | .httpResponse status _ _ => !respOk status

/-- A JSON-level value that is actually there: neither `null` nor
`undefined`. -/
def populated (v : JsValue) : Prop := v ≠ .vNull ∧ v ≠ .vUndefined

/-- The shape every `setVerification` argument in the source has: the
`(step, isLoading)` pair is one of `(1,false)`, `(2,true)`, `(3,true)`,
`(4,false)`, and `result` or `error` is absent. -/
def updateOk (v : Verification) : Prop :=
  ((v.step = 1 ∧ v.isLoading = false) ∨ (v.step = 2 ∧ v.isLoading = true) ∨
   (v.step = 3 ∧ v.isLoading = true) ∨ (v.step = 4 ∧ v.isLoading = false)) ∧
  (v.result = none ∨ v.error = none)

/-- A 5 MB JPEG, as in the spec's happy-path scenario. -/
def idFileEx : MFile := { name := "id.jpg", size := 5 * 1024 * 1024, type := "image/jpeg" }

/-- A 2 MB PNG, as in the spec's happy-path scenario. -/
def selfieFileEx : MFile := { name := "selfie.png", size := 2 * 1024 * 1024, type := "image/png" }

/-- A component state with both slots staged. -/
def bothStagedState : AppState :=
  { initialState with files := { idCard := some idFileEx, selfie := some selfieFileEx } }

/-- A component state with only the id slot staged. -/
def idOnlyState : AppState :=
  { initialState with files := { idCard := some idFileEx, selfie := none } }

/-- The 2xx response body of the spec's happy-path scenario. -/
def scenarioBody : JsValue :=
  .vObj [("status", .vStr "approved"), ("trust_score", .vNum 92),
         ("name", .vStr "Jane Doe")]

/-- A raw response carrying a `processing_time` field (the raw field of the
same name as the output field). -/
def c1RawInput : JsValue := .vObj [("processing_time", .vNum 5)]

/-- A raw response with a present-but-falsy `name` and a present zero
`trust_score`. -/
def c10Sparse : JsValue := .vObj [("name", .vStr ""), ("trust_score", .vNum 0)]

/-- A small valid PNG staged into the id slot — the failing input for the
teardown-release property. -/
def c7Ops : List StageOp := [.select { name := "id.png", size := 1024, type := "image/png" } .id]

theorem populated_of_truthy {v : JsValue} (h : truthy v = true) : populated v := by
  cases v <;> simp_all [truthy, populated]

theorem populated_of_not_nullish {v : JsValue} (h : isNullish v = false) :
    populated v := by
  cases v <;> simp_all [isNullish, populated]

theorem populated_vStr (s : String) : populated (.vStr s) := by
  simp [populated]

theorem populated_vNum (n : Int) : populated (.vNum n) := by
  simp [populated]

theorem populated_vBool (b : Bool) : populated (.vBool b) := by
  simp [populated]

theorem populated_vArr (xs : List JsValue) : populated (.vArr xs) := by
  simp [populated]

theorem populated_vObj (fs : List (String × JsValue)) : populated (.vObj fs) := by
  simp [populated]

theorem jsOr_populated {a d : JsValue} (hd : populated d) : populated (jsOr a d) := by
  unfold jsOr
  by_cases h : truthy a = true
  · rw [if_pos h]; exact populated_of_truthy h
  · rw [if_neg h]; exact hd

theorem jsNullish_populated {a d : JsValue} (hd : populated d) :
    populated (jsNullish a d) := by
  unfold jsNullish
  by_cases h : isNullish a = true
  · rw [if_pos h]; exact hd
  · rw [if_neg h]
    exact populated_of_not_nullish (by simpa using h)

theorem jsOr_absent {a d : JsValue} (h : a = .vUndefined) : jsOr a d = d := by
  subst h; rfl

theorem jsNullish_absent {a d : JsValue} (h : a = .vUndefined) : jsNullish a d = d := by
  subst h; rfl

theorem jsOr_falsy {a d : JsValue} (h : truthy a = false) : jsOr a d = d := by
  unfold jsOr; rw [h]; rfl

theorem jsNullish_of_nullish {a d : JsValue} (h : isNullish a = true) :
    jsNullish a d = d := by
  unfold jsNullish; rw [h]; rfl

theorem jsNullish_of_present {a d : JsValue} (h : isNullish a = false) :
    jsNullish a d = a := by
  unfold jsNullish; rw [h]; rfl

/-- C3: the projection from the raw verify response is a total function
(`transformResult` is a plain Lean function on every `JsValue`, however
sparse the object), and every documented output field that has a default
is populated — never the `null`/`undefined` sentinel — in its output. -/
theorem project_total_defaults (raw : JsValue) :
    populated (transformResult raw).extracted.name ∧
    populated (transformResult raw).extracted.dob ∧
    populated (transformResult raw).extracted.id_number ∧
    populated (transformResult raw).extracted.document_type ∧
    populated (transformResult raw).trust_score ∧
    populated (transformResult raw).face_confidence ∧
    populated (transformResult raw).fraud_flags.has_fraud_indicators ∧
    populated (transformResult raw).fraud_flags.risk_level ∧
    populated (transformResult raw).fraud_flags.flags ∧
    populated (transformResult raw).fraud_flags.summary ∧
    populated (transformResult raw).fraud_flags.details.age_validation ∧
    populated (transformResult raw).fraud_flags.details.expiry_validation ∧
    populated (transformResult raw).fraud_flags.details.name_validation ∧
    populated (transformResult raw).fraud_flags.details.id_validation ∧
    populated (transformResult raw).fraud_flags.details.consistency_issues ∧
    populated (transformResult raw).summary ∧
    populated (transformResult raw).status := by
  refine ⟨?_, ?_, ?_, ?_, ?_, ?_, ?_, ?_, ?_, ?_, ?_, ?_, ?_, ?_, ?_, ?_, ?_⟩ <;>
    first
      | exact jsOr_populated (populated_vStr _)
      | exact jsOr_populated (populated_vArr _)
      | exact jsOr_populated (populated_vObj _)
      | exact jsNullish_populated (populated_vNum _)
      | exact jsNullish_populated (populated_vBool _)

/-- Witness for C3 at the empty JSON object. -/
theorem project_total_defaults_witness :
    populated (transformResult (.vObj [])).extracted.name ∧
    populated (transformResult (.vObj [])).trust_score :=
  ⟨(project_total_defaults (.vObj [])).1,
   (project_total_defaults (.vObj [])).2.2.2.2.1⟩

/-- C1 counterexample: the output field `processing_time` is not passed
through from the same-named raw field. On a raw body whose
`processing_time` is 5, the projected `processing_time` is `undefined`,
because the source reads the raw field `processing_time_ms` instead. -/
theorem processing_time_not_samename_passthrough :
    jsGet c1RawInput "processing_time" = .vNum 5 ∧
    (transformResult c1RawInput).processing_time = .vUndefined ∧
    (transformResult c1RawInput).processing_time ≠ jsGet c1RawInput "processing_time" := by
  refine ⟨rfl, rfl, fun h => ?_⟩
  rw [show (transformResult c1RawInput).processing_time = JsValue.vUndefined from rfl,
      show jsGet c1RawInput "processing_time" = JsValue.vNum 5 from rfl] at h
  exact JsValue.noConfusion h

/-- C1 (amended): the projection maps each raw field to the documented
output field with the documented default when the source is absent;
`verification_id`, `success` and `timestamp` are passed through from the
same-named raw fields and `processing_time` from the raw field
`processing_time_ms`, all with no default substitution; and on a 2xx
response with body `{status:"approved", trust_score:92, name:"Jane Doe"}`
the final state has step 4, `result.trust_score = 92`,
`result.extracted.name = "Jane Doe"`, `result.extracted.dob = "Unknown"`,
and `result.fraud_flags.flags = []`. -/
theorem verify_projection_fields :
    (∀ raw : JsValue,
      (transformResult raw).verification_id = jsGet raw "verification_id" ∧
      (transformResult raw).success = jsGet raw "success" ∧
      (transformResult raw).timestamp = jsGet raw "timestamp" ∧
      (transformResult raw).processing_time = jsGet raw "processing_time_ms" ∧
      (jsGet raw "name" = .vUndefined →
        (transformResult raw).extracted.name = .vStr "Unknown") ∧
      (jsGet raw "dob" = .vUndefined →
        (transformResult raw).extracted.dob = .vStr "Unknown") ∧
      (jsGet raw "id_number" = .vUndefined →
        (transformResult raw).extracted.id_number = .vStr "Unknown") ∧
      (jsGet raw "document_type" = .vUndefined →
        (transformResult raw).extracted.document_type = .vStr "unknown") ∧
      (jsGet raw "trust_score" = .vUndefined →
        (transformResult raw).trust_score = .vNum 0) ∧
      (jsGet raw "face_confidence" = .vUndefined →
        (transformResult raw).face_confidence = .vNum 0) ∧
      (jsGet (jsGet raw "fraud_flags") "has_fraud_indicators" = .vUndefined →
        (transformResult raw).fraud_flags.has_fraud_indicators = .vBool false) ∧
      (jsGet (jsGet raw "fraud_flags") "risk_level" = .vUndefined →
        (transformResult raw).fraud_flags.risk_level = .vStr "unknown") ∧
      (jsGet (jsGet raw "fraud_flags") "flags" = .vUndefined →
        (transformResult raw).fraud_flags.flags = .vArr []) ∧
      (jsGet (jsGet raw "fraud_flags") "summary" = .vUndefined →
        (transformResult raw).fraud_flags.summary = .vStr "") ∧
      (jsGet (jsGet (jsGet raw "fraud_flags") "details") "age_validation" = .vUndefined →
        (transformResult raw).fraud_flags.details.age_validation = .vObj []) ∧
      (jsGet (jsGet (jsGet raw "fraud_flags") "details") "expiry_validation" = .vUndefined →
        (transformResult raw).fraud_flags.details.expiry_validation = .vObj []) ∧
      (jsGet (jsGet (jsGet raw "fraud_flags") "details") "name_validation" = .vUndefined →
        (transformResult raw).fraud_flags.details.name_validation = .vObj []) ∧
      (jsGet (jsGet (jsGet raw "fraud_flags") "details") "id_validation" = .vUndefined →
        (transformResult raw).fraud_flags.details.id_validation = .vObj []) ∧
      (jsGet (jsGet (jsGet raw "fraud_flags") "details") "consistency_issues" = .vUndefined →
        (transformResult raw).fraud_flags.details.consistency_issues = .vArr []) ∧
      (jsGet raw "summary" = .vUndefined →
        (transformResult raw).summary = .vStr "Verification completed.") ∧
      (jsGet raw "status" = .vUndefined →
        (transformResult raw).status = .vStr "completed")) ∧
    (∀ s : AppState, s.files.idCard.isSome = true → s.files.selfie.isSome = true →
      (handleVerifyKYC s (.httpResponse 200 "OK" scenarioBody)).finalState.verification.step = 4 ∧
      (handleVerifyKYC s (.httpResponse 200 "OK" scenarioBody)).finalState.verification.result =
        some (transformResult scenarioBody) ∧
      (transformResult scenarioBody).trust_score = .vNum 92 ∧
      (transformResult scenarioBody).extracted.name = .vStr "Jane Doe" ∧
      (transformResult scenarioBody).extracted.dob = .vStr "Unknown" ∧
      (transformResult scenarioBody).fraud_flags.flags = .vArr []) := by
  constructor
  · intro raw
    exact ⟨rfl, rfl, rfl, rfl,
      fun h => jsOr_absent h, fun h => jsOr_absent h, fun h => jsOr_absent h,
      fun h => jsOr_absent h, fun h => jsNullish_absent h, fun h => jsNullish_absent h,
      fun h => jsNullish_absent h, fun h => jsOr_absent h, fun h => jsOr_absent h,
      fun h => jsOr_absent h, fun h => jsOr_absent h, fun h => jsOr_absent h,
      fun h => jsOr_absent h, fun h => jsOr_absent h, fun h => jsOr_absent h,
      fun h => jsOr_absent h, fun h => jsOr_absent h⟩
  · intro s h1 h2
    obtain ⟨a, ha⟩ := Option.isSome_iff_exists.mp h1
    obtain ⟨b, hb⟩ := Option.isSome_iff_exists.mp h2
    have hguard : (s.files.idCard.isNone || s.files.selfie.isNone) = false := by
      simp [ha, hb]
    unfold handleVerifyKYC
    rw [hguard]
    exact ⟨rfl, rfl, rfl, rfl, rfl, rfl⟩

/-- Witness for C1's amended theorem: the happy-path scenario run from a
state with a 5 MB JPEG id and a 2 MB PNG selfie staged. -/
theorem verify_projection_fields_witness :
    (handleVerifyKYC bothStagedState (.httpResponse 200 "OK" scenarioBody)).finalState.verification.step = 4 ∧
    (handleVerifyKYC bothStagedState (.httpResponse 200 "OK" scenarioBody)).finalState.verification.result =
      some (transformResult scenarioBody) ∧
    (transformResult scenarioBody).trust_score = .vNum 92 ∧
    (transformResult scenarioBody).extracted.name = .vStr "Jane Doe" ∧
    (transformResult scenarioBody).extracted.dob = .vStr "Unknown" ∧
    (transformResult scenarioBody).fraud_flags.flags = .vArr [] :=
  verify_projection_fields.2 bothStagedState rfl rfl

/-- C10: the `||`-defaulted (string-valued) projection fields substitute
their default for every falsy raw value — in particular for a present empty
string — while `trust_score` and `face_confidence` use `??` and substitute
0 only for `null`/`undefined`, so a present 0 is preserved. -/
theorem falsy_vs_nullish_defaults :
    (∀ raw : JsValue,
      (truthy (jsGet raw "name") = false →
        (transformResult raw).extracted.name = .vStr "Unknown") ∧
      (truthy (jsGet raw "dob") = false →
        (transformResult raw).extracted.dob = .vStr "Unknown") ∧
      (truthy (jsGet raw "id_number") = false →
        (transformResult raw).extracted.id_number = .vStr "Unknown") ∧
      (truthy (jsGet raw "document_type") = false →
        (transformResult raw).extracted.document_type = .vStr "unknown") ∧
      (truthy (jsGet (jsGet raw "fraud_flags") "risk_level") = false →
        (transformResult raw).fraud_flags.risk_level = .vStr "unknown") ∧
      (truthy (jsGet (jsGet raw "fraud_flags") "summary") = false →
        (transformResult raw).fraud_flags.summary = .vStr "") ∧
      (truthy (jsGet raw "summary") = false →
        (transformResult raw).summary = .vStr "Verification completed.") ∧
      (truthy (jsGet raw "status") = false →
        (transformResult raw).status = .vStr "completed") ∧
      (isNullish (jsGet raw "trust_score") = true →
        (transformResult raw).trust_score = .vNum 0) ∧
      (isNullish (jsGet raw "trust_score") = false →
        (transformResult raw).trust_score = jsGet raw "trust_score") ∧
      (isNullish (jsGet raw "face_confidence") = true →
        (transformResult raw).face_confidence = .vNum 0) ∧
      (isNullish (jsGet raw "face_confidence") = false →
        (transformResult raw).face_confidence = jsGet raw "face_confidence")) ∧
    (transformResult c10Sparse).extracted.name = .vStr "Unknown" ∧
    (transformResult c10Sparse).trust_score = .vNum 0 := by
  refine ⟨fun raw => ?_, rfl, rfl⟩
  exact ⟨fun h => jsOr_falsy h, fun h => jsOr_falsy h, fun h => jsOr_falsy h,
    fun h => jsOr_falsy h, fun h => jsOr_falsy h, fun h => jsOr_falsy h,
    fun h => jsOr_falsy h, fun h => jsOr_falsy h,
    fun h => jsNullish_of_nullish h, fun h => jsNullish_of_present h,
    fun h => jsNullish_of_nullish h, fun h => jsNullish_of_present h⟩

/-- Witness for C10: on a body with `name:""` and `trust_score:0`, the
empty string falls back to the default while the zero score is kept. -/
theorem falsy_vs_nullish_defaults_witness :
    (transformResult c10Sparse).extracted.name = .vStr "Unknown" ∧
    (transformResult c10Sparse).trust_score = jsGet c10Sparse "trust_score" :=
  ⟨(falsy_vs_nullish_defaults.1 c10Sparse).1 rfl,
   (falsy_vs_nullish_defaults.1 c10Sparse).2.2.2.2.2.2.2.2.2.1 rfl⟩

/-- C2: after any failed verify attempt (transport error or non-2xx
status), the state has step 1, not loading, no result, an error message
carrying the failure (containing "500" for an HTTP 500), and both staged
files unchanged. -/
theorem verify_failure_resets (s : AppState) (outcome : FetchOutcome)
    (hId : s.files.idCard.isSome = true) (hSelfie : s.files.selfie.isSome = true)
    (hFail : verifyFails outcome = true) :
    (handleVerifyKYC s outcome).requestIssued = true ∧
    (handleVerifyKYC s outcome).finalState.verification.step = 1 ∧
    (handleVerifyKYC s outcome).finalState.verification.isLoading = false ∧
    (handleVerifyKYC s outcome).finalState.verification.result = none ∧
    (handleVerifyKYC s outcome).finalState.files = s.files ∧
    ∃ e, (handleVerifyKYC s outcome).finalState.verification.error = some e ∧
      (∀ msg, outcome = .networkError msg → e = "Verification failed: " ++ msg) ∧
      (∀ st txt body, outcome = .httpResponse st txt body →
        e = "Verification failed: HTTP " ++ toString st ++ ": " ++ txt) ∧
      (∀ txt body, outcome = .httpResponse 500 txt body →
        ∃ x y, e = x ++ "500" ++ y) := by
  obtain ⟨a, ha⟩ := Option.isSome_iff_exists.mp hId
  obtain ⟨b, hb⟩ := Option.isSome_iff_exists.mp hSelfie
  have hguard : (s.files.idCard.isNone || s.files.selfie.isNone) = false := by
    simp [ha, hb]
  unfold handleVerifyKYC
  rw [hguard]
  cases outcome with
  | networkError msg =>
    refine ⟨rfl, rfl, rfl, rfl, rfl, "Verification failed: " ++ msg, rfl, ?_, ?_, ?_⟩
    · intro m hm; injection hm with h1; rw [h1]
    · intro st txt body h; cases h
    · intro txt body h; cases h
  | httpResponse st txt body =>
    have hok : respOk st = false := by simpa [verifyFails] using hFail
    have hfin : verifyFinal (.httpResponse st txt body) =
        { step := 1, isLoading := false, result := none,
          error := some ("Verification failed: HTTP " ++ toString st ++ ": " ++ txt) } := by
      simp only [verifyFinal]
      rw [hok]
      rfl
    rw [hfin]
    refine ⟨rfl, rfl, rfl, rfl, rfl,
      "Verification failed: HTTP " ++ toString st ++ ": " ++ txt, rfl, ?_, ?_, ?_⟩
    · intro m hm; cases hm
    · intro st' txt' body' h
      injection h with h1 h2 h3
      rw [h1, h2]
    · intro txt' body' h
      injection h with h1 h2 h3
      subst h1; subst h2
      refine ⟨"Verification failed: HTTP ", ": " ++ txt, ?_⟩
      rw [show toString (500 : Nat) = "500" from rfl, String.append_assoc]

/-- Witness for C2: a simulated HTTP 500 from the fully staged state. -/
theorem verify_failure_resets_witness :
    (handleVerifyKYC bothStagedState (.httpResponse 500 "Internal Server Error" (.vObj []))).requestIssued = true ∧
    (handleVerifyKYC bothStagedState (.httpResponse 500 "Internal Server Error" (.vObj []))).finalState.verification.step = 1 ∧
    (handleVerifyKYC bothStagedState (.httpResponse 500 "Internal Server Error" (.vObj []))).finalState.verification.isLoading = false ∧
    (handleVerifyKYC bothStagedState (.httpResponse 500 "Internal Server Error" (.vObj []))).finalState.verification.result = none ∧
    (handleVerifyKYC bothStagedState (.httpResponse 500 "Internal Server Error" (.vObj []))).finalState.files = bothStagedState.files ∧
    ∃ e, (handleVerifyKYC bothStagedState (.httpResponse 500 "Internal Server Error" (.vObj []))).finalState.verification.error = some e ∧
      (∀ msg, (FetchOutcome.httpResponse 500 "Internal Server Error" (.vObj [])) = .networkError msg →
        e = "Verification failed: " ++ msg) ∧
      (∀ st txt body, (FetchOutcome.httpResponse 500 "Internal Server Error" (.vObj [])) = .httpResponse st txt body →
        e = "Verification failed: HTTP " ++ toString st ++ ": " ++ txt) ∧
      (∀ txt body, (FetchOutcome.httpResponse 500 "Internal Server Error" (.vObj [])) = .httpResponse 500 txt body →
        ∃ x y, e = x ++ "500" ++ y) :=
  verify_failure_resets bothStagedState
    (.httpResponse 500 "Internal Server Error" (.vObj [])) rfl rfl rfl

/-- C5: `handleVerifyKYC` with either slot empty performs no state change
and issues no request; the only effect is the blocking warning. -/
theorem verify_guard_no_state_change (s : AppState) (outcome : FetchOutcome)
    (h : s.files.idCard = none ∨ s.files.selfie = none) :
    handleVerifyKYC s outcome =
      { finalState := s, requestIssued := false, updates := [],
        alertMsg := some "Please upload both ID document and selfie before verification." } := by
  have hg : (s.files.idCard.isNone || s.files.selfie.isNone) = true := by
    rcases h with h | h <;> simp [h]
  unfold handleVerifyKYC
  rw [hg]
  rfl

/-- Witness for C5: calling verify with only the id slot staged. -/
theorem verify_guard_no_state_change_witness :
    handleVerifyKYC idOnlyState (.networkError "down") =
      { finalState := idOnlyState, requestIssued := false, updates := [],
        alertMsg := some "Please upload both ID document and selfie before verification." } :=
  verify_guard_no_state_change idOnlyState (.networkError "down") (Or.inr rfl)

/-- C4: an oversized or wrong-typed candidate file is rejected: the staging
state (hence the previously staged file and the preview counter) is
unchanged, no notification is emitted, and the alert describes the failed
constraint, size being checked before type. -/
theorem select_rejects_invalid (s : UploadState) (f : MFile) (slot : Slot)
    (h : maxSize < f.size ∨ allowedTypes.contains f.type = false) :
    (handleFileSelect s f slot).state = s ∧
    (handleFileSelect s f slot).notified = none ∧
    (∃ msg, (handleFileSelect s f slot).alertMsg = some msg) ∧
    (maxSize < f.size →
      (handleFileSelect s f slot).alertMsg = some "File size must be less than 10MB") ∧
    (¬ maxSize < f.size → allowedTypes.contains f.type = false →
      (handleFileSelect s f slot).alertMsg =
        some "Please upload a valid image file (JPEG, PNG, WebP)") := by
  by_cases hsz : maxSize < f.size
  · have hv : validateFile f = some "File size must be less than 10MB" := by
      simp [validateFile, hsz]
    refine ⟨?_, ?_, ⟨"File size must be less than 10MB", ?_⟩, fun _ => ?_, fun hc _ => absurd hsz hc⟩ <;>
      simp [handleFileSelect, hv]
  · have ht : allowedTypes.contains f.type = false := by
      rcases h with h | h
      · exact absurd h hsz
      · exact h
    have hcond : (!(allowedTypes.contains f.type)) = true := by rw [ht]; rfl
    have hv : validateFile f = some "Please upload a valid image file (JPEG, PNG, WebP)" := by
      unfold validateFile
      rw [if_neg hsz, if_pos hcond]
    refine ⟨?_, ?_, ⟨"Please upload a valid image file (JPEG, PNG, WebP)", ?_⟩,
      fun hc => absurd hc hsz, fun _ _ => ?_⟩ <;>
      simp [handleFileSelect, hv]

/-- Witness for C4: a file one byte over the 10 MB limit is rejected and
the staging state is untouched. -/
theorem select_rejects_invalid_witness :
    (handleFileSelect initialUpload { name := "big.jpg", size := maxSize + 1, type := "image/jpeg" } .id).state = initialUpload ∧
    (handleFileSelect initialUpload { name := "big.jpg", size := maxSize + 1, type := "image/jpeg" } .id).notified = none ∧
    (∃ msg, (handleFileSelect initialUpload { name := "big.jpg", size := maxSize + 1, type := "image/jpeg" } .id).alertMsg = some msg) ∧
    (maxSize < maxSize + 1 →
      (handleFileSelect initialUpload { name := "big.jpg", size := maxSize + 1, type := "image/jpeg" } .id).alertMsg =
        some "File size must be less than 10MB") ∧
    (¬ maxSize < maxSize + 1 → allowedTypes.contains "image/jpeg" = false →
      (handleFileSelect initialUpload { name := "big.jpg", size := maxSize + 1, type := "image/jpeg" } .id).alertMsg =
        some "Please upload a valid image file (JPEG, PNG, WebP)") :=
  select_rejects_invalid initialUpload
    { name := "big.jpg", size := maxSize + 1, type := "image/jpeg" } .id
    (Or.inl (Nat.lt_succ_self maxSize))

/-- C8: the health probe sets status healthy (with the raw payload
retained) exactly on a 2xx response, and error with "HTTP <code>" or the
thrown message otherwise; it never touches the workflow state or the
staged files. -/
theorem health_probe_spec (s : AppState) (outcome : FetchOutcome) (now : String) :
    (checkApiHealth s outcome now).files = s.files ∧
    (checkApiHealth s outcome now).verification = s.verification ∧
    ((checkApiHealth s outcome now).apiHealth.status = "healthy" ↔
      ∃ st txt body, outcome = .httpResponse st txt body ∧ respOk st = true) ∧
    (∀ st txt body, outcome = .httpResponse st txt body → respOk st = true →
      (checkApiHealth s outcome now).apiHealth.data = some body) ∧
    (∀ st txt body, outcome = .httpResponse st txt body → respOk st = false →
      (checkApiHealth s outcome now).apiHealth.status = "error" ∧
      (checkApiHealth s outcome now).apiHealth.error = some ("HTTP " ++ toString st)) ∧
    (∀ msg, outcome = .networkError msg →
      (checkApiHealth s outcome now).apiHealth.status = "error" ∧
      (checkApiHealth s outcome now).apiHealth.error = some msg) := by
  cases outcome with
  | networkError msg =>
    refine ⟨rfl, rfl, ?_, ?_, ?_, ?_⟩
    · constructor
      · intro h
        exact absurd (show ("error" : String) = "healthy" from h) (by decide)
      · rintro ⟨st, txt, body, hc, _⟩; cases hc
    · intro st txt body hc; cases hc
    · intro st txt body hc; cases hc
    · intro m hm
      injection hm with h1
      subst h1
      exact ⟨rfl, rfl⟩
  | httpResponse st txt body =>
    cases hok : respOk st with
    | false =>
      refine ⟨rfl, rfl, ?_, ?_, ?_, ?_⟩
      · constructor
        · intro h
          simp [checkApiHealth, hok] at h
        · rintro ⟨st', txt', body', hc, hok'⟩
          injection hc with h1 h2 h3
          subst h1
          rw [hok] at hok'
          exact Bool.noConfusion hok'
      · intro st' txt' body' hc hok'
        injection hc with h1 h2 h3
        subst h1
        rw [hok] at hok'
        exact Bool.noConfusion hok'
      · intro st' txt' body' hc _
        injection hc with h1 h2 h3
        subst h1
        exact ⟨by simp [checkApiHealth, hok], by simp [checkApiHealth, hok]⟩
      · intro m hm; cases hm
    | true =>
      refine ⟨rfl, rfl, ?_, ?_, ?_, ?_⟩
      · exact ⟨fun _ => ⟨st, txt, body, rfl, hok⟩, fun _ => by simp [checkApiHealth, hok]⟩
      · intro st' txt' body' hc _
        injection hc with h1 h2 h3
        subst h3
        simp [checkApiHealth, hok]
      · intro st' txt' body' hc hok'
        injection hc with h1 h2 h3
        subst h1
        rw [hok] at hok'
        exact Bool.noConfusion hok'
      · intro m hm; cases hm

/-- Witness for C8: a simulated network failure during the probe. -/
theorem health_probe_spec_witness :
    (checkApiHealth initialState (.networkError "Failed to fetch") "12:00:00").apiHealth.status = "error" ∧
    (checkApiHealth initialState (.networkError "Failed to fetch") "12:00:00").apiHealth.error =
      some "Failed to fetch" :=
  (health_probe_spec initialState (.networkError "Failed to fetch") "12:00:00").2.2.2.2.2
    "Failed to fetch" rfl

/-- C6: in every reachable state, the submit action (`canProceed`) is
enabled exactly when both slots are occupied and no verification is in
flight, and is disabled whenever a slot is empty or one is in flight. -/
theorem submit_enabled_iff (s : AppState) (_hs : Reachable s) :
    (canProceed s = true ↔
      (s.files.idCard.isSome = true ∧ s.files.selfie.isSome = true ∧
       s.verification.isLoading = false)) ∧
    ((s.files.idCard = none ∨ s.files.selfie = none ∨
      s.verification.isLoading = true) → canProceed s = false) := by
  constructor
  · simp [canProceed, and_assoc]
  · intro hd
    rcases hd with hd | hd | hd <;> simp [canProceed, hd]

/-- Witness for C6 at the (reachable) mount state. -/
theorem submit_enabled_iff_witness :
    (canProceed initialState = true ↔
      (initialState.files.idCard.isSome = true ∧
       initialState.files.selfie.isSome = true ∧
       initialState.verification.isLoading = false)) ∧
    ((initialState.files.idCard = none ∨ initialState.files.selfie = none ∨
      initialState.verification.isLoading = true) →
      canProceed initialState = false) :=
  submit_enabled_iff initialState Reachable.init

/-- C7 (failing run): stage one valid file, then tear the component down.
The select allocated preview 0 and it is still live, but the unmount
cleanup — whose closure captured the mount-time (empty) slots — releases
nothing: `released` stays empty, so the replaced/removed/teardown release
discipline the claim states is violated on teardown. -/
theorem teardown_leaks_staged_preview :
    (runOps initialUpload c7Ops).nextPreview = 1 ∧
    livePreview (runOps initialUpload c7Ops) 0 ∧
    (runOps initialUpload c7Ops).released = [] ∧
    (unmountCleanup initialUpload (runOps initialUpload c7Ops)).released = [] ∧
    livePreview (unmountCleanup initialUpload (runOps initialUpload c7Ops)) 0 := by
  exact ⟨rfl, Or.inl ⟨_, rfl, rfl⟩, rfl, rfl, Or.inl ⟨_, rfl, rfl⟩⟩

theorem verifyFinal_updateOk (outcome : FetchOutcome) : updateOk (verifyFinal outcome) := by
  cases outcome with
  | networkError msg => exact ⟨Or.inl ⟨rfl, rfl⟩, Or.inl rfl⟩
  | httpResponse st txt body =>
    by_cases h : respOk st = true
    · have hfin : verifyFinal (.httpResponse st txt body) =
          { step := 4, isLoading := false,
            result := some (transformResult body), error := none } := by
        simp only [verifyFinal]
        rw [h]
        rfl
      rw [hfin]
      exact ⟨Or.inr (Or.inr (Or.inr ⟨rfl, rfl⟩)), Or.inr rfl⟩
    · have hfin : verifyFinal (.httpResponse st txt body) =
          { step := 1, isLoading := false, result := none,
            error := some ("Verification failed: HTTP " ++ toString st ++ ": " ++ txt) } := by
        simp only [verifyFinal]
        rw [if_neg h]
      rw [hfin]
      exact ⟨Or.inl ⟨rfl, rfl⟩, Or.inl rfl⟩

theorem updates_updateOk (s : AppState) (outcome : FetchOutcome) :
    ∀ v ∈ (handleVerifyKYC s outcome).updates, updateOk v := by
  intro v hv
  unfold handleVerifyKYC at hv
  by_cases h : (s.files.idCard.isNone || s.files.selfie.isNone) = true
  · rw [if_pos h] at hv
    simp at hv
  · rw [if_neg h] at hv
    simp only [List.mem_cons, List.not_mem_nil, or_false] at hv
    rcases hv with rfl | rfl | rfl
    · exact ⟨Or.inr (Or.inl ⟨rfl, rfl⟩), Or.inl rfl⟩
    · exact ⟨Or.inr (Or.inr (Or.inl ⟨rfl, rfl⟩)), Or.inl rfl⟩
    · exact verifyFinal_updateOk outcome

theorem reachable_updateOk {s : AppState} (h : Reachable s) :
    updateOk s.verification := by
  induction h with
  | init => exact ⟨Or.inl ⟨rfl, rfl⟩, Or.inl rfl⟩
  | filesSelect s f _ ih =>
    unfold handleFilesSelect
    by_cases hr : s.verification.result.isSome = true
    · rw [if_pos hr]
      exact ⟨Or.inl ⟨rfl, rfl⟩, Or.inl rfl⟩
    · rw [if_neg hr]
      exact ih
  | verifyMid s outcome s' _ hmem ih =>
    simp only [verifyIntermediates, List.mem_map] at hmem
    obtain ⟨v, hv, rfl⟩ := hmem
    exact updates_updateOk s outcome v hv
  | verifyDone s outcome _ ih =>
    unfold handleVerifyKYC
    by_cases hg : (s.files.idCard.isNone || s.files.selfie.isNone) = true
    · rw [if_pos hg]
      exact ih
    · rw [if_neg hg]
      exact verifyFinal_updateOk outcome
  | startOver s _ ih => exact ⟨Or.inl ⟨rfl, rfl⟩, Or.inl rfl⟩
  | health s outcome now _ ih => exact ih

/-- C9: in every reachable state `isLoading` holds exactly when the step is
2 or 3, and `result` or `error` is absent; moreover every
`setVerification` update performed by the verify handler, and the reset
value written by the start-over / file-selection handlers, sets
`(step, isLoading)` to one of `(1,false)`, `(2,true)`, `(3,true)`,
`(4,false)` with `result` or `error` absent. -/
theorem loading_iff_midflight :
    (∀ s : AppState, Reachable s →
      ((s.verification.isLoading = true ↔
        (s.verification.step = 2 ∨ s.verification.step = 3)) ∧
       (s.verification.result = none ∨ s.verification.error = none))) ∧
    (∀ (s : AppState) (outcome : FetchOutcome),
      ∀ v ∈ (handleVerifyKYC s outcome).updates, updateOk v) ∧
    updateOk resetVerification := by
  refine ⟨?_, updates_updateOk, ⟨Or.inl ⟨rfl, rfl⟩, Or.inl rfl⟩⟩
  intro s hs
  obtain ⟨hsteps, hre⟩ := reachable_updateOk hs
  refine ⟨?_, hre⟩
  rcases hsteps with ⟨h1, h2⟩ | ⟨h1, h2⟩ | ⟨h1, h2⟩ | ⟨h1, h2⟩ <;> simp [h1, h2]

/-- Witness for C9 at the (reachable) mount state. -/
theorem loading_iff_midflight_witness :
    (initialState.verification.isLoading = true ↔
      (initialState.verification.step = 2 ∨ initialState.verification.step = 3)) ∧
    (initialState.verification.result = none ∨ initialState.verification.error = none) :=
  loading_iff_midflight.1 initialState Reachable.init

end KYC
